import Mathlib

/-!
Verification of the feature-engineering core of the maize-disease web app
(`app.py`): the `create_features` transform and the `/predict` request
orchestration, embedded shallowly over the semantics of Python's
`datetime.strptime(date_str, "%Y-%m-%d")`, `timetuple().tm_yday` and
`(a - b).days` that the code relies on.
-/

/-- A calendar date, the result of a successful `datetime.strptime` parse
(the time-of-day part is always midnight here and is omitted). -/
structure Date where
  year : Nat
  month : Nat
  day : Nat
deriving DecidableEq

/-- Python's leap-year rule (`calendar.isleap` / `datetime._is_leap`):
divisible by 4 and not by 100, or divisible by 400. -/
def isLeap (y : Nat) : Prop := (y % 4 = 0 ∧ y % 100 ≠ 0) ∨ y % 400 = 0

instance (y : Nat) : Decidable (isLeap y) := by
  unfold isLeap
  exact inferInstance

/-- `datetime._days_in_month`: number of days of month `m` in year `y`. -/
def daysInMonth (y m : Nat) : Nat :=
  if m = 2 then (if isLeap y then 29 else 28)
  else if m = 4 ∨ m = 6 ∨ m = 9 ∨ m = 11 then 30
  else 31

/-- `datetime._days_before_month`: days in year `y` strictly before month `m`
(the cumulative-sum table `_DAYS_BEFORE_MONTH` plus the leap adjustment). -/
def days_before_month (y m : Nat) : Nat :=
  (match m with
   | 1 => 0 | 2 => 31 | 3 => 59 | 4 => 90 | 5 => 120 | 6 => 151 | 7 => 181
   | 8 => 212 | 9 => 243 | 10 => 273 | 11 => 304 | 12 => 334
   | _ => 0)
  + (if 2 < m ∧ isLeap y then 1 else 0)

/-- Number of leap years among `1 .. n` (the `n//4 - n//100 + n//400` term of
`datetime._days_before_year`; the natural subtraction is exact because
`n / 100 ≤ n / 4`). -/
def leapsBefore (n : Nat) : Nat := n / 4 - n / 100 + n / 400

/-- `datetime._days_before_year`: days before January 1st of year `y`. -/
def days_before_year (y : Nat) : Nat := (y - 1) * 365 + leapsBefore (y - 1)

/-- Length of calendar year `y` in days. -/
def days_in_year (y : Nat) : Nat := if isLeap y then 366 else 365

/-- `date.toordinal()`: proleptic-Gregorian ordinal of the date, with
0001-01-01 mapped to 1. The subtraction `(a - b).days` in the code is the
difference of these ordinals, both datetimes being at midnight. -/
def toOrdinal (d : Date) : Nat :=
  days_before_year d.year + days_before_month d.year d.month + d.day

/-- `timetuple().tm_yday` of line 35 of `app.py`: 1-based ordinal day of the
date within its calendar year, as CPython computes it. -/
def tm_yday (d : Date) : Nat := days_before_month d.year d.month + d.day

/-- Spec-side notion of the 1-based ordinal day of a date within its calendar
year, defined independently of `tm_yday`: one more than the ordinal distance
from January 1st of the same year. -/
def ordinalDayInYear (d : Date) : Nat :=
  toOrdinal d + 1 - toOrdinal ⟨d.year, 1, 1⟩

/-- The dates that `datetime(year, month, day)` accepts: year `1..9999`
(`MINYEAR..MAXYEAR`; the upper bound is implied by the 4-digit year token),
month `1..12`, day `1..daysInMonth`. -/
def ValidDate (d : Date) : Prop :=
  1 ≤ d.year ∧ 1 ≤ d.month ∧ d.month ≤ 12 ∧ 1 ≤ d.day ∧
    d.day ≤ daysInMonth d.year d.month

instance (d : Date) : Decidable (ValidDate d) := by
  unfold ValidDate
  exact inferInstance

/-- Calendar order on dates: lexicographic on (year, month, day). -/
def dateBefore (a b : Date) : Prop :=
  a.year < b.year ∨
    (a.year = b.year ∧
      (a.month < b.month ∨ (a.month = b.month ∧ a.day < b.day)))

instance (a b : Date) : Decidable (dateBefore a b) := by
  unfold dateBefore
  exact inferInstance

/-! ### The `%Y-%m-%d` parse of `datetime.strptime`

CPython's `_strptime` compiles the format to the regex
`(?P<Y>\d\d\d\d)-(?P<m>1[0-2]|0[1-9]|[1-9])-(?P<d>3[01]|[12]\d|0[1-9]|[1-9])`,
requires the match to consume the whole string, and then validates the
numbers through the `datetime` constructor. Since the three groups match
digits only and the literal dashes separate them, a string is accepted by
the regex exactly when splitting it at the dash characters yields three
pieces matching the year, month and day alternations respectively. -/

/-- Split a character list at every `-`, keeping empty pieces
(the behaviour of splitting on a single-character separator). -/
def splitDash : List Char → List (List Char)
  | [] => [[]]
  | c :: rest =>
    let r := splitDash rest
    if c = '-' then [] :: r
    else
      match r with
      | [] => [[c]]
      | h :: t => (c :: h) :: t

/-- The `%Y` group: exactly four decimal digits. -/
def yearToken : List Char → Option Nat
  | [a, b, c, d] =>
    if (48 ≤ a.toNat ∧ a.toNat ≤ 57) ∧ (48 ≤ b.toNat ∧ b.toNat ≤ 57) ∧
       (48 ≤ c.toNat ∧ c.toNat ≤ 57) ∧ (48 ≤ d.toNat ∧ d.toNat ≤ 57) then
      some (1000 * (a.toNat - 48) + 100 * (b.toNat - 48) +
            10 * (c.toNat - 48) + (d.toNat - 48))
    else none
  | _ => none

/-- The `%m` group, regex `1[0-2]|0[1-9]|[1-9]`: months need not be
zero-padded. -/
def monthToken : List Char → Option Nat
  | [c1, c2] =>
    if c1 = '1' ∧ 48 ≤ c2.toNat ∧ c2.toNat ≤ 50 then
      some (10 + (c2.toNat - 48))
    else if c1 = '0' ∧ 49 ≤ c2.toNat ∧ c2.toNat ≤ 57 then
      some (c2.toNat - 48)
    else none
  | [c] => if 49 ≤ c.toNat ∧ c.toNat ≤ 57 then some (c.toNat - 48) else none
  | _ => none

/-- The `%d` group, regex `3[01]|[12]\d|0[1-9]|[1-9]`: days need not be
zero-padded. -/
def dayToken : List Char → Option Nat
  | [c1, c2] =>
    if c1 = '3' ∧ (c2 = '0' ∨ c2 = '1') then some (30 + (c2.toNat - 48))
    else if (c1 = '1' ∨ c1 = '2') ∧ 48 ≤ c2.toNat ∧ c2.toNat ≤ 57 then
      some (10 * (c1.toNat - 48) + (c2.toNat - 48))
    else if c1 = '0' ∧ 49 ≤ c2.toNat ∧ c2.toNat ≤ 57 then
      some (c2.toNat - 48)
    else none
  | [c] => if 49 ≤ c.toNat ∧ c.toNat ≤ 57 then some (c.toNat - 48) else none
  | _ => none

/-- `datetime.strptime(s, "%Y-%m-%d")` of line 30 of `app.py`:
`some` date on success, `none` where Python raises `ValueError`
(either a regex mismatch or an out-of-range calendar component). -/
def strptimeYMD (s : String) : Option Date :=
  match splitDash s.data with
  | [ys, ms, ds] =>
    match yearToken ys, monthToken ms, dayToken ds with
    | some y, some m, some d =>
      if 1 ≤ y ∧ d ≤ daysInMonth y m then some ⟨y, m, d⟩ else none
    | _, _, _ => none
  | _ => none

/-! ### The feature builder and the request handler -/

/-- The single-row DataFrame built on lines 41-45 of `app.py`. -/
structure FeatureRecord where
  Stage : String
  DayOfYear : Nat
  DaysSinceStart : Int
deriving DecidableEq

/-- `create_features(date_str, stage)` of `app.py`, parametrised by the
externally loaded `start_date`. Returns the `(data, error)` pair exactly as
the Python function does: `(record, None)` on success,
`(None, message)` when the date parse raises `ValueError`. -/
def create_features (start : Date) (date_str stage : String) :
    Option FeatureRecord × Option String :=
  match strptimeYMD date_str with
  | none => (none, some "Invalid date format. Please use YYYY-MM-DD.")
  | some current_date =>
    let day_of_year := tm_yday current_date
    let days_since_start : Int :=
      (toOrdinal current_date : Int) - (toOrdinal start : Int)
    (some { Stage := stage, DayOfYear := day_of_year,
            DaysSinceStart := days_since_start }, none)

/-- The stage labels of the dropdown (`UNIQUE_STAGES` in `app.py`). -/
def UNIQUE_STAGES : List String :=
  ["Germination", "Seedling", "Vegetative Growth",
   "Tasseling & Pollination", "Grain Filling", "Maturity & Harvest"]

/-- Python truthiness of an optional form field: `None` and the empty
string are falsy, every other string is truthy. -/
def pyTruthy : Option String → Bool
  | none => false
  | some s => !(s == "")

/-- The data handed to `render_template` that the claims observe:
the `prediction_text` message and the echoed form values. -/
structure Response where
  prediction_text : String
  date_val : Option String
  stage_val : Option String
deriving DecidableEq

/-- Outcome of one `POST /predict` request: which branch of the handler ran
and what it rendered. `crash` stands for the unhandled exception Python
would raise if `create_features` ever returned `(None, None)` and `None`
reached `model.predict`; it is proved unreachable below. -/
inductive PredictOutcome where
  | missingInput (resp : Response)
  | invalidDate (resp : Response)
  | predicted (features : FeatureRecord) (resp : Response)
  | crash
deriving DecidableEq

/-- The `predict` route of `app.py` (lines 56-84), parametrised by the
loaded classifier (`model.predict(X)[0]`) and the reference start date.
`date_input` / `stage_input` are `request.form.get` results. -/
def predict (classifier : FeatureRecord → String) (start : Date)
    (date_input stage_input : Option String) : PredictOutcome :=
  if !(pyTruthy date_input) || !(pyTruthy stage_input) then
    .missingInput ⟨"Error: Please provide both date and stage.",
                   date_input, stage_input⟩
  else
    let ds := date_input.getD ""
    let ss := stage_input.getD ""
    let res := create_features start ds ss
    if pyTruthy res.2 then
      .invalidDate ⟨"Error: " ++ res.2.getD "", date_input, stage_input⟩
    else
      match res.1 with
      | some X =>
        .predicted X
          ⟨"The predicted disease for stage \x27" ++ ss ++ "\x27 on " ++ ds ++
             " is: " ++ classifier X, date_input, stage_input⟩
      | none => .crash

/-- Sublist-from-the-start test used to state substring facts. -/
def listStartsWith : List Char → List Char → Bool
  | [], _ => true
  | _ :: _, [] => false
  | a :: as, b :: bs => a = b && listStartsWith as bs

/-- `needle` occurs as a contiguous run of characters inside `hay`
(Python's `needle in hay` on strings). -/
def occursIn (needle : List Char) : List Char → Bool
  | [] => listStartsWith needle []
  | c :: rest => listStartsWith needle (c :: rest) || occursIn needle rest

example : create_features ⟨2024, 1, 1⟩ "2024-03-15" "Seedling" =
    (some ⟨"Seedling", 75, 74⟩, none) := by decide

example : strptimeYMD "2024-3-5" = some ⟨2024, 3, 5⟩ := by decide

example : strptimeYMD "15-03-2024" = none := by decide

example : strptimeYMD "2024-02-30" = none := by decide

example : strptimeYMD "2024-02-29" = some ⟨2024, 2, 29⟩ := by decide

example : strptimeYMD "2023-02-29" = none := by decide

example : strptimeYMD "0000-01-01" = none := by decide

example : strptimeYMD "" = none := by decide

example : occursIn "15".data "Error: use YYYY-MM-DD.".data = false := by decide

/-! ### Arithmetic facts about the date ordinals -/

theorem leapsBefore_succ (n : Nat) :
    leapsBefore (n + 1) = leapsBefore n + (if isLeap (n + 1) then 1 else 0) := by
  unfold leapsBefore isLeap
  split <;> omega

theorem days_before_year_succ (y : Nat) (hy : 1 ≤ y) :
    days_before_year (y + 1) = days_before_year y + days_in_year y := by
  unfold days_before_year days_in_year
  have h := leapsBefore_succ (y - 1)
  rw [Nat.sub_add_cancel hy] at h
  have h2 : y + 1 - 1 = (y - 1) + 1 := by omega
  rw [h2, Nat.sub_add_cancel hy, h]
  by_cases hl : isLeap y
  · simp only [if_pos hl]
    omega
  · simp only [if_neg hl]
    omega

theorem days_in_year_pos (y : Nat) : 365 ≤ days_in_year y := by
  unfold days_in_year
  split <;> omega

theorem days_before_year_mono (y1 y2 : Nat) (h1 : 1 ≤ y1) (h : y1 < y2) :
    days_before_year y1 + days_in_year y1 ≤ days_before_year y2 := by
  induction y2 with
  | zero => omega
  | succ k ih =>
    rcases Nat.lt_succ_iff_lt_or_eq.mp h with hk | hk
    · have hk1 : 1 ≤ k := by omega
      calc days_before_year y1 + days_in_year y1 ≤ days_before_year k := ih hk
        _ ≤ days_before_year k + days_in_year k := Nat.le_add_right _ _
        _ = days_before_year (k + 1) := (days_before_year_succ k hk1).symm
    · subst hk
      exact Nat.le_of_eq (days_before_year_succ y1 h1).symm

theorem days_before_month_add_le (y m d : Nat) (hm1 : 1 ≤ m) (hm2 : m ≤ 12)
    (hd : d ≤ daysInMonth y m) :
    days_before_month y m + d ≤ days_in_year y := by
  unfold daysInMonth at hd
  unfold days_before_month days_in_year
  by_cases hl : isLeap y <;>
    [simp only [hl, and_true] at hd ⊢; simp only [hl, and_false] at hd ⊢] <;>
    interval_cases m <;> simp_all <;> omega

theorem days_before_month_mono (y m1 m2 : Nat) (hm1 : 1 ≤ m1) (h : m1 < m2)
    (hm2 : m2 ≤ 12) :
    days_before_month y m1 + daysInMonth y m1 ≤ days_before_month y m2 := by
  have hup : m1 ≤ 12 := by omega
  unfold days_before_month daysInMonth
  by_cases hl : isLeap y <;>
    [simp only [hl, and_true]; simp only [hl, and_false]] <;>
    interval_cases m1 <;> interval_cases m2 <;> simp_all

theorem toOrdinal_lt_of_before (a b : Date) (ha : ValidDate a)
    (hb : ValidDate b) (h : dateBefore a b) : toOrdinal a < toOrdinal b := by
  obtain ⟨hay, ham1, ham2, had1, had2⟩ := ha
  obtain ⟨hby, hbm1, hbm2, hbd1, hbd2⟩ := hb
  unfold toOrdinal
  rcases h with hy | ⟨hy, hm | ⟨hm, hd⟩⟩
  · have h1 : days_before_month a.year a.month + a.day ≤ days_in_year a.year :=
      days_before_month_add_le a.year a.month a.day ham1 ham2 had2
    have h2 : days_before_year a.year + days_in_year a.year ≤
        days_before_year b.year := days_before_year_mono a.year b.year hay hy
    omega
  · have h1 : days_before_month a.year a.month + daysInMonth a.year a.month ≤
        days_before_month a.year b.month :=
      days_before_month_mono a.year a.month b.month ham1 hm hbm2
    rw [← hy] at *
    omega
  · rw [← hy, ← hm] at *
    omega

theorem date_trichotomy (a b : Date) : dateBefore a b ∨ a = b ∨ dateBefore b a := by
  cases a with
  | mk ay am ad =>
    cases b with
    | mk by' bm bd =>
      simp only [dateBefore, Date.mk.injEq]
      omega

theorem toOrdinal_lt_iff (a b : Date) (ha : ValidDate a) (hb : ValidDate b) :
    toOrdinal a < toOrdinal b ↔ dateBefore a b := by
  constructor
  · intro h
    rcases date_trichotomy a b with hab | hab | hab
    · exact hab
    · subst hab
      omega
    · have := toOrdinal_lt_of_before b a hb ha hab
      omega
  · exact toOrdinal_lt_of_before a b ha hb

theorem toOrdinal_eq_iff (a b : Date) (ha : ValidDate a) (hb : ValidDate b) :
    toOrdinal a = toOrdinal b ↔ a = b := by
  constructor
  · intro h
    rcases date_trichotomy a b with hab | hab | hab
    · have := toOrdinal_lt_of_before a b ha hb hab
      omega
    · exact hab
    · have := toOrdinal_lt_of_before b a hb ha hab
      omega
  · intro h
    rw [h]

theorem tm_yday_eq_ordinalDayInYear (d : Date) :
    tm_yday d = ordinalDayInYear d := by
  unfold tm_yday ordinalDayInYear toOrdinal
  have h : days_before_month d.year 1 = 0 := by
    unfold days_before_month
    norm_num
  simp only [h]
  omega

/-! ### The parser only produces valid dates -/

theorem monthToken_bounds {l : List Char} {m : Nat}
    (h : monthToken l = some m) : 1 ≤ m ∧ m ≤ 12 := by
  match l with
  | [] => simp [monthToken] at h
  | [c] =>
    simp only [monthToken] at h
    split at h
    · rename_i hc
      cases h
      omega
    · cases h
  | [c1, c2] =>
    simp only [monthToken] at h
    split at h
    · rename_i hc
      cases h
      omega
    · split at h
      · rename_i hc
        cases h
        omega
      · cases h
  | _ :: _ :: _ :: _ => simp [monthToken] at h

theorem dayToken_bounds {l : List Char} {d : Nat}
    (h : dayToken l = some d) : 1 ≤ d := by
  match l with
  | [] => simp [dayToken] at h
  | [c] =>
    simp only [dayToken] at h
    split at h
    · rename_i hc
      cases h
      omega
    · cases h
  | [c1, c2] =>
    simp only [dayToken] at h
    split at h
    · rename_i hc
      cases h
      obtain ⟨h1, h2⟩ := hc
      rcases h2 with h2 | h2 <;> subst h2 <;> decide
    · split at h
      · rename_i hc
        cases h
        obtain ⟨h1, h2, h3⟩ := hc
        rcases h1 with h1 | h1 <;> subst h1 <;> simp <;> omega
      · split at h
        · rename_i hc
          cases h
          omega
        · cases h
  | _ :: _ :: _ :: _ => simp [dayToken] at h

theorem strptimeYMD_valid {s : String} {d : Date}
    (h : strptimeYMD s = some d) : ValidDate d := by
  unfold strptimeYMD at h
  split at h
  · rename_i ys ms ds heq
    split at h
    · rename_i y m dd hy hm hd
      split at h
      · rename_i hcond
        cases h
        have hmb := monthToken_bounds hm
        have hdb := dayToken_bounds hd
        exact ⟨hcond.1, hmb.1, hmb.2, hdb, hcond.2⟩
      · cases h
    · cases h
  · cases h

/-! ### Shape of `create_features` and of the handler branches -/

theorem create_features_parsed (start : Date) (ds stage : String) (d : Date)
    (h : strptimeYMD ds = some d) :
    create_features start ds stage =
      (some ⟨stage, tm_yday d, (toOrdinal d : Int) - (toOrdinal start : Int)⟩,
       none) := by
  unfold create_features
  rw [h]

theorem create_features_failed (start : Date) (ds stage : String)
    (h : strptimeYMD ds = none) :
    create_features start ds stage =
      (none, some "Invalid date format. Please use YYYY-MM-DD.") := by
  unfold create_features
  rw [h]

theorem pyTruthy_some {o : Option String} (h : pyTruthy o = true) :
    ∃ s, o = some s ∧ s ≠ "" := by
  cases o with
  | none => simp [pyTruthy] at h
  | some s =>
    refine ⟨s, rfl, ?_⟩
    simp [pyTruthy] at h
    exact h

theorem predict_missing (classifier : FeatureRecord → String) (start : Date)
    (di si : Option String) (h : pyTruthy di = false ∨ pyTruthy si = false) :
    predict classifier start di si =
      PredictOutcome.missingInput
        ⟨"Error: Please provide both date and stage.", di, si⟩ := by
  unfold predict
  rcases h with h | h <;> rw [h] <;> simp

theorem predict_of_error (classifier : FeatureRecord → String) (start : Date)
    (di si : Option String) (hd : pyTruthy di = true) (hs : pyTruthy si = true)
    (msg : String) (hmsg : msg ≠ "")
    (hcf : create_features start (di.getD "") (si.getD "") = (none, some msg)) :
    predict classifier start di si =
      PredictOutcome.invalidDate ⟨"Error: " ++ msg, di, si⟩ := by
  unfold predict
  rw [hd, hs]
  simp only [Bool.not_true, Bool.or_self, Bool.false_eq_true, if_false, hcf,
    pyTruthy, Option.getD_some]
  simp [hmsg]

theorem predict_of_success (classifier : FeatureRecord → String) (start : Date)
    (di si : Option String) (hd : pyTruthy di = true) (hs : pyTruthy si = true)
    (X : FeatureRecord)
    (hcf : create_features start (di.getD "") (si.getD "") = (some X, none)) :
    predict classifier start di si =
      PredictOutcome.predicted X
        ⟨"The predicted disease for stage \x27" ++ si.getD "" ++ "\x27 on " ++
           di.getD "" ++ " is: " ++ classifier X, di, si⟩ := by
  unfold predict
  rw [hd, hs]
  simp only [Bool.not_true, Bool.or_self, Bool.false_eq_true, if_false, hcf,
    pyTruthy, Option.getD_some]

/-- The handler never reaches the dead `(None, None)` state in which Python
would hand `None` to `model.predict`: `create_features` always returns either
a record or an error message. -/
theorem predict_never_crash (classifier : FeatureRecord → String)
    (start : Date) (di si : Option String) :
    predict classifier start di si ≠ PredictOutcome.crash := by
  by_cases hd : pyTruthy di = true
  · by_cases hs : pyTruthy si = true
    · cases h : strptimeYMD (di.getD "") with
      | none =>
        rw [predict_of_error classifier start di si hd hs _ (by decide)
          (create_features_failed start (di.getD "") (si.getD "") h)]
        exact fun hx => PredictOutcome.noConfusion hx
      | some d =>
        rw [predict_of_success classifier start di si hd hs _
          (create_features_parsed start (di.getD "") (si.getD "") d h)]
        exact fun hx => PredictOutcome.noConfusion hx
    · rw [predict_missing classifier start di si (Or.inr (by simpa using hs))]
      exact fun hx => PredictOutcome.noConfusion hx
  · rw [predict_missing classifier start di si (Or.inl (by simpa using hd))]
    exact fun hx => PredictOutcome.noConfusion hx

/-! ### The claims -/

/-- Claim C1: for every date string accepted by the `%Y-%m-%d` strptime parse
and every stage string (the stage is unconstrained), `create_features`
succeeds, and the `DayOfYear` field of the returned record equals the 1-based
ordinal day of the parsed date within its calendar year. -/
theorem C1_dayOfYear_correct (start : Date) (ds stage : String) (d : Date)
    (h : strptimeYMD ds = some d) :
    ∃ rec, create_features start ds stage = (some rec, none) ∧
      rec.DayOfYear = ordinalDayInYear d :=
  ⟨_, create_features_parsed start ds stage d h, tm_yday_eq_ordinalDayInYear d⟩

/-- Witness for C1 at the concrete date 2024-03-15. -/
theorem C1_dayOfYear_correct_witness :
    ∃ rec, create_features ⟨2024, 1, 1⟩ "2024-03-15" "Seedling" =
        (some rec, none) ∧
      rec.DayOfYear = ordinalDayInYear ⟨2024, 3, 15⟩ :=
  C1_dayOfYear_correct ⟨2024, 1, 1⟩ "2024-03-15" "Seedling" ⟨2024, 3, 15⟩
    (by decide)

/-- Claim C2: for every valid parsed date, `DaysSinceStart` is the signed
whole-day difference between the date and the reference start date (the
difference of the two `toordinal` values), and it is negative exactly when
the date precedes the reference date in calendar order, zero exactly when
they are equal, and positive exactly when it follows it. -/
theorem C2_daysSinceStart_correct (start : Date) (hstart : ValidDate start)
    (ds stage : String) (d : Date) (h : strptimeYMD ds = some d) :
    ∃ rec, create_features start ds stage = (some rec, none) ∧
      rec.DaysSinceStart = (toOrdinal d : Int) - (toOrdinal start : Int) ∧
      (rec.DaysSinceStart < 0 ↔ dateBefore d start) ∧
      (rec.DaysSinceStart = 0 ↔ d = start) ∧
      (0 < rec.DaysSinceStart ↔ dateBefore start d) := by
  have hd := strptimeYMD_valid h
  refine ⟨_, create_features_parsed start ds stage d h, rfl, ?_, ?_, ?_⟩
  · show (toOrdinal d : Int) - (toOrdinal start : Int) < 0 ↔ dateBefore d start
    rw [← toOrdinal_lt_iff d start hd hstart]
    omega
  · show (toOrdinal d : Int) - (toOrdinal start : Int) = 0 ↔ d = start
    rw [← toOrdinal_eq_iff d start hd hstart]
    omega
  · show 0 < (toOrdinal d : Int) - (toOrdinal start : Int) ↔ dateBefore start d
    rw [← toOrdinal_lt_iff start d hstart hd]
    omega

/-- Witness for C2: 2024-03-15 against the reference date 2024-01-01 gives a
positive offset, and the three sign equivalences hold there. -/
theorem C2_daysSinceStart_correct_witness :
    ∃ rec, create_features ⟨2024, 1, 1⟩ "2024-03-15" "Seedling" =
        (some rec, none) ∧
      rec.DaysSinceStart =
        (toOrdinal ⟨2024, 3, 15⟩ : Int) - (toOrdinal ⟨2024, 1, 1⟩ : Int) ∧
      (rec.DaysSinceStart < 0 ↔ dateBefore ⟨2024, 3, 15⟩ ⟨2024, 1, 1⟩) ∧
      (rec.DaysSinceStart = 0 ↔ (⟨2024, 3, 15⟩ : Date) = ⟨2024, 1, 1⟩) ∧
      (0 < rec.DaysSinceStart ↔ dateBefore ⟨2024, 1, 1⟩ ⟨2024, 3, 15⟩) :=
  C2_daysSinceStart_correct ⟨2024, 1, 1⟩ (by decide) "2024-03-15" "Seedling"
    ⟨2024, 3, 15⟩ (by decide)

/-- Claim C3: for every date string the strptime parse rejects,
`create_features` returns the invalid-date error with no record, and the
`predict` handler never reaches the classifier-invoking branch on a request
carrying that date string (whatever the stage field holds). -/
theorem C3_invalidDate_no_classifier (start : Date) (ds stage : String)
    (h : strptimeYMD ds = none) :
    create_features start ds stage =
      (none, some "Invalid date format. Please use YYYY-MM-DD.") ∧
    ∀ (classifier : FeatureRecord → String) (si : Option String)
      (X : FeatureRecord) (resp : Response),
      predict classifier start (some ds) si ≠
        PredictOutcome.predicted X resp := by
  refine ⟨create_features_failed start ds stage h, ?_⟩
  intro classifier si X resp
  by_cases hd : pyTruthy (some ds) = true
  · by_cases hs : pyTruthy si = true
    · rw [predict_of_error classifier start (some ds) si hd hs _ (by decide)
        (create_features_failed start ((some ds).getD "") (si.getD "")
          (by simpa using h))]
      exact fun hx => PredictOutcome.noConfusion hx
    · rw [predict_missing classifier start (some ds) si
        (Or.inr (by simpa using hs))]
      exact fun hx => PredictOutcome.noConfusion hx
  · rw [predict_missing classifier start (some ds) si
      (Or.inl (by simpa using hd))]
    exact fun hx => PredictOutcome.noConfusion hx

/-- Witness for C3 at the wrong-format date of end-to-end scenario 2,
fully instantiated: that request is not answered by any prediction, in
particular not by this concrete one. -/
theorem C3_invalidDate_no_classifier_witness :
    create_features ⟨2024, 1, 1⟩ "15-03-2024" "Seedling" =
      (none, some "Invalid date format. Please use YYYY-MM-DD.") ∧
    predict (fun _ => "Blight") ⟨2024, 1, 1⟩ (some "15-03-2024")
        (some "Seedling") ≠
      PredictOutcome.predicted ⟨"Seedling", 75, 74⟩
        ⟨"irrelevant", some "15-03-2024", some "Seedling"⟩ :=
  ⟨(C3_invalidDate_no_classifier ⟨2024, 1, 1⟩ "15-03-2024" "Seedling"
      (by decide)).1,
   (C3_invalidDate_no_classifier ⟨2024, 1, 1⟩ "15-03-2024" "Seedling"
      (by decide)).2 (fun _ => "Blight") (some "Seedling")
     ⟨"Seedling", 75, 74⟩ ⟨"irrelevant", some "15-03-2024", some "Seedling"⟩⟩

/-- Claim C4: with reference start date 2024-01-01, the inputs "2024-03-15"
and "Seedling" produce exactly the record with Stage "Seedling",
DayOfYear 75 and DaysSinceStart 74 (end-to-end scenario 1). -/
theorem C4_scenario_2024_03_15 :
    create_features ⟨2024, 1, 1⟩ "2024-03-15" "Seedling" =
      (some ⟨"Seedling", 75, 74⟩, none) := by
  decide

/-- Claim C5: a submission with an absent or empty date field or stage field
is answered by the missing-input message of line 66 of `app.py`; neither the
invalid-date branch (the feature builder's error path) nor the prediction
branch is reached. -/
theorem C5_missing_short_circuit (classifier : FeatureRecord → String)
    (start : Date) (di si : Option String)
    (h : di = none ∨ di = some "" ∨ si = none ∨ si = some "") :
    predict classifier start di si =
      PredictOutcome.missingInput
        ⟨"Error: Please provide both date and stage.", di, si⟩ ∧
    (∀ resp, predict classifier start di si ≠
      PredictOutcome.invalidDate resp) ∧
    (∀ X resp, predict classifier start di si ≠
      PredictOutcome.predicted X resp) := by
  have heq : predict classifier start di si =
      PredictOutcome.missingInput
        ⟨"Error: Please provide both date and stage.", di, si⟩ := by
    apply predict_missing
    rcases h with rfl | rfl | rfl | rfl
    · exact Or.inl rfl
    · exact Or.inl (by decide)
    · exact Or.inr rfl
    · exact Or.inr (by decide)
  refine ⟨heq, ?_, ?_⟩
  · intro resp
    rw [heq]
    exact fun hx => PredictOutcome.noConfusion hx
  · intro X resp
    rw [heq]
    exact fun hx => PredictOutcome.noConfusion hx

/-- Witness for C5 at end-to-end scenario 3: non-empty date, empty stage. -/
theorem C5_missing_short_circuit_witness :
    predict (fun _ => "Blight") ⟨2024, 1, 1⟩ (some "2024-03-15") (some "") =
      PredictOutcome.missingInput
        ⟨"Error: Please provide both date and stage.",
         some "2024-03-15", some ""⟩ :=
  (C5_missing_short_circuit (fun _ => "Blight") ⟨2024, 1, 1⟩
    (some "2024-03-15") (some "") (Or.inr (Or.inr (Or.inr rfl)))).1

/-- Claim C6: for every parsed date and arbitrary stage string — enumerated
in `UNIQUE_STAGES` or not — the feature builder does not reject the stage
and copies it unchanged into the `Stage` field, and the handler hands that
record, with that `Stage`, to the classifier. -/
theorem C6_stage_passthrough (start : Date) (ds stage : String) (d : Date)
    (h : strptimeYMD ds = some d) :
    (∃ rec, create_features start ds stage = (some rec, none) ∧
      rec.Stage = stage) ∧
    ∀ (classifier : FeatureRecord → String), stage ≠ "" → ds ≠ "" →
      ∃ X resp, predict classifier start (some ds) (some stage) =
        PredictOutcome.predicted X resp ∧ X.Stage = stage := by
  refine ⟨⟨_, create_features_parsed start ds stage d h, rfl⟩, ?_⟩
  intro classifier hstage hds
  exact ⟨_, _, predict_of_success classifier start (some ds) (some stage)
    (by simpa [pyTruthy] using hds) (by simpa [pyTruthy] using hstage) _
    (create_features_parsed start ds stage d h), rfl⟩

/-- Witness for C6 with a stage label outside the enumerated set. -/
theorem C6_stage_passthrough_witness :
    "NotAStage" ∉ UNIQUE_STAGES ∧
    (∃ rec, create_features ⟨2024, 1, 1⟩ "2024-03-15" "NotAStage" =
        (some rec, none) ∧ rec.Stage = "NotAStage") ∧
    ∃ X resp, predict (fun _ => "Blight") ⟨2024, 1, 1⟩ (some "2024-03-15")
        (some "NotAStage") = PredictOutcome.predicted X resp ∧
      X.Stage = "NotAStage" :=
  ⟨by decide,
   (C6_stage_passthrough ⟨2024, 1, 1⟩ "2024-03-15" "NotAStage" ⟨2024, 3, 15⟩
      (by decide)).1,
   (C6_stage_passthrough ⟨2024, 1, 1⟩ "2024-03-15" "NotAStage" ⟨2024, 3, 15⟩
      (by decide)).2 (fun _ => "Blight") (by decide) (by decide)⟩

/-- Claim C7: the feature builder is deterministic — with the reference start
date fixed, two calls on identical inputs return identical results. The
embedding is a pure function of exactly these three values; the Python
function reads nothing else beyond the immutable module-level `start_date`,
so determinism is by construction of the embedding. -/
theorem C7_deterministic (start : Date) (ds1 ds2 s1 s2 : String)
    (h1 : ds1 = ds2) (h2 : s1 = s2) :
    create_features start ds1 s1 = create_features start ds2 s2 := by
  rw [h1, h2]

/-- Witness for C7: two identical concrete calls agree. -/
theorem C7_deterministic_witness :
    create_features ⟨2024, 1, 1⟩ "2024-03-15" "Seedling" =
      create_features ⟨2024, 1, 1⟩ "2024-03-15" "Seedling" :=
  C7_deterministic ⟨2024, 1, 1⟩ "2024-03-15" "2024-03-15" "Seedling"
    "Seedling" rfl rfl

/-- Claim C9: `create_features` is total — in the embedding, the absence of
an escaping exception is totality of the function, the only raising
operation (`strptime`) being modelled by the `Option`-valued parse — and
returns exactly one of two shapes: a populated record with no error, or no
record with a non-empty error message. -/
theorem C9_total_exclusive (start : Date) (ds stage : String) :
    (∃ rec, create_features start ds stage = (some rec, none)) ∨
    (∃ msg, create_features start ds stage = (none, some msg) ∧ msg ≠ "") := by
  cases h : strptimeYMD ds with
  | none =>
    exact Or.inr ⟨_, create_features_failed start ds stage h, by decide⟩
  | some d => exact Or.inl ⟨_, create_features_parsed start ds stage d h⟩

/-- Claim C10: the error branch is taken exactly when the `%Y-%m-%d` parse
fails, and that parse tolerates non-zero-padded components: "2024-3-5"
(8 characters, not the 10 of the zero-padded form) is accepted and yields a
record rather than the invalid-date error. -/
theorem C10_non_padded_accepted :
    (∀ (start : Date) (ds stage : String),
      (create_features start ds stage).2 ≠ none ↔ strptimeYMD ds = none) ∧
    strptimeYMD "2024-3-5" = some ⟨2024, 3, 5⟩ ∧
    "2024-3-5".data.length = 8 ∧
    ∃ rec, create_features ⟨2024, 1, 1⟩ "2024-3-5" "Seedling" =
      (some rec, none) := by
  refine ⟨?_, by decide, by decide, ?_⟩
  · intro start ds stage
    cases h : strptimeYMD ds with
    | none => simp [create_features_failed start ds stage h, h]
    | some d => simp [create_features_parsed start ds stage d h, h]
  · exact ⟨_, create_features_parsed ⟨2024, 1, 1⟩ "2024-3-5" "Seedling"
      ⟨2024, 3, 5⟩ (by decide)⟩

/-- Claim C8 fails on the code: on the malformed submission "15-03-2024" the
handler renders the fixed message of line 32 of `app.py`, and the submitted
date string does not occur anywhere in that message — the user-facing
message does not echo the invalid input. -/
theorem C8_message_counterexample :
    predict (fun _ => "Blight") ⟨2024, 1, 1⟩ (some "15-03-2024")
        (some "Maturity & Harvest") =
      PredictOutcome.invalidDate
        ⟨"Error: Invalid date format. Please use YYYY-MM-DD.",
         some "15-03-2024", some "Maturity & Harvest"⟩ ∧
    occursIn "15-03-2024".data
      "Error: Invalid date format. Please use YYYY-MM-DD.".data = false :=
  ⟨by decide, by decide⟩

/-- Claim C8 (amended): for every submission with non-empty fields whose
date string fails to parse, the handler short-circuits with the fixed
message "Error: Invalid date format. Please use YYYY-MM-DD." — which does
not contain the submitted date string — and the submitted values are echoed
back only as the re-rendered form field values of the response. -/
theorem C8_amended_fixed_message (classifier : FeatureRecord → String)
    (start : Date) (ds ss : String) (hds : ds ≠ "") (hss : ss ≠ "")
    (h : strptimeYMD ds = none) :
    predict classifier start (some ds) (some ss) =
      PredictOutcome.invalidDate
        ⟨"Error: Invalid date format. Please use YYYY-MM-DD.",
         some ds, some ss⟩ := by
  have heq := predict_of_error classifier start (some ds) (some ss)
    (by simpa [pyTruthy] using hds) (by simpa [pyTruthy] using hss)
    "Invalid date format. Please use YYYY-MM-DD." (by decide)
    (create_features_failed start ds ss h)
  exact heq.trans rfl

/-- Witness for the amended C8 at an impossible month. -/
theorem C8_amended_fixed_message_witness :
    predict (fun _ => "Blight") ⟨2024, 1, 1⟩ (some "2024-13-40")
        (some "Germination") =
      PredictOutcome.invalidDate
        ⟨"Error: Invalid date format. Please use YYYY-MM-DD.",
         some "2024-13-40", some "Germination"⟩ :=
  C8_amended_fixed_message (fun _ => "Blight") ⟨2024, 1, 1⟩ "2024-13-40"
    "Germination" (by decide) (by decide) (by decide)
